import Mathlib

/-!
Verification of the Monetag reward postback endpoint of the kkoin bot
server.  The endpoint (GET /monetag-reward) is embedded as a pure
function from a configuration, the server-local date string, a
transaction-failure oracle, the request query parameters and the
current ledger state to an HTTP response and the next ledger state.
The Firestore transaction is modelled as an atomic, all-or-nothing
update of the ledger, matching the isolation the store provides: a
failing transaction leaves the ledger untouched.
-/

namespace KkoinServer

/-- Value of a decimal digit character, if the character is one. -/
def decDigit? (c : Char) : Option Nat :=
  if '0' ≤ c ∧ c ≤ '9' then some (c.toNat - '0'.toNat) else none

/-- Value of a hexadecimal digit character, if the character is one. -/
def hexDigit? (c : Char) : Option Nat :=
  if '0' ≤ c ∧ c ≤ '9' then some (c.toNat - '0'.toNat)
  else if 'a' ≤ c ∧ c ≤ 'f' then some (c.toNat - 'a'.toNat + 10)
  else if 'A' ≤ c ∧ c ≤ 'F' then some (c.toNat - 'A'.toNat + 10)
  else none

/-- Longest leading run of characters recognised by the digit reader. -/
def leadingDigits (f : Char → Option Nat) : List Char → List Nat
  | [] => []
  | c :: cs =>
    match f c with
    | some d => d :: leadingDigits f cs
    | none => []

/-- Value of a digit list in the given base, most significant first. -/
def digitsVal (base : Nat) (ds : List Nat) : Nat :=
  List.foldl (fun a d => a * base + d) 0 ds

/-- Rounding of a natural number to the nearest IEEE-754 binary64 value
(53 significant bits, round half to even), returned as the exact
integer that double denotes.  parseInt returns a JS Number, a binary64
double, so digit strings whose value reaches 2 ^ 53 are subject to
this rounding; below 2 ^ 53 the function is the identity.  Magnitudes
at or above the binary64 overflow threshold near 1.8e308, where the
Number would be Infinity, are outside the range this development
evaluates the model at.  The floor base-2 logarithm is written with
structural fuel recursion so the kernel can evaluate it; the first
argument is the fuel and any fuel of at least the logarithm is
enough. -/
def log2Floor : Nat → Nat → Nat
  | 0, _ => 0
  | fuel + 1, v => if v < 2 then 0 else log2Floor fuel (v / 2) + 1

def roundFloat53 (v : Nat) : Nat :=
  if v < 2 ^ 53 then v
  else
    let shift := log2Floor v v + 1 - 53
    let q := v / 2 ^ shift
    let r := v % 2 ^ shift
    let half := 2 ^ (shift - 1)
    if half < r ∨ (r = half ∧ q % 2 = 1) then (q + 1) * 2 ^ shift
    else q * 2 ^ shift

theorem roundFloat53_small (v : Nat) (h : v < 2 ^ 53) : roundFloat53 v = v := by
  unfold roundFloat53
  rw [if_pos h]

/-- Model of the JavaScript parseInt applied to a string with no radix
argument: skip leading whitespace, read an optional sign, detect a 0x
or 0X prefix (hexadecimal), then take the longest run of digits in the
chosen base.  A result of none models NaN (no digit could be read).
The digit value is returned as the binary64 Number parseInt produces,
hence the 53-bit rounding on the magnitude. -/
def jsParseInt (s : String) : Option Int :=
  let t := List.dropWhile Char.isWhitespace s.toList
  let signed : Int × List Char :=
    match t with
    | '-' :: rest => (-1, rest)
    | '+' :: rest => (1, rest)
    | _ => (1, t)
  let based : Nat × List Char :=
    match signed.2 with
    | '0' :: 'x' :: rest => (16, rest)
    | '0' :: 'X' :: rest => (16, rest)
    | _ => (10, signed.2)
  let ds := leadingDigits (if based.1 = 16 then hexDigit? else decDigit?) based.2
  if ds = [] then none
  else some (signed.1 * (roundFloat53 (digitsVal based.1 ds) : Int))

/-- Model of parseInt applied to an Express query parameter that may be
absent: parseInt(undefined) coerces undefined to the string
"undefined", which has no digit to read, hence NaN. -/
def jsParseIntOpt : Option String → Option Int
  | none => none
  | some s => jsParseInt s

/-- Truthiness of the user_id query parameter: the JavaScript test
!user_id holds exactly when the parameter is absent or empty. -/
def falsyStr : Option String → Bool
  | none => true
  | some s => s == ""

/-- Per-user profile document stored at
artifacts/APP_ID/users/user_id/data/profile. -/
structure UserProfile where
  userId : String
  points : Int
  referrals : Int
  claimedTasks : List String
  lastAdWatchDate : String
  adsWatchedToday : Int
  processingWithdrawal : Bool
deriving Repr, DecidableEq

/-- Query parameters of the postback request; each may be absent. -/
structure Request where
  user_id : Option String
  secret : Option String
  points : Option String
deriving Repr, DecidableEq

/-- HTTP status code and plain-text body sent back to the caller. -/
structure HttpResponse where
  status : Nat
  body : String
deriving Repr, DecidableEq

/-- Server configuration relevant to the endpoint: the shared postback
secret loaded from the environment at startup. -/
structure Config where
  REWARD_ENDPOINT_SECRET : String
deriving Repr, DecidableEq

/-- Ledger state: the profile documents keyed by user identifier. -/
def Ledger : Type := List (String × UserProfile)

instance : DecidableEq Ledger := by
  unfold Ledger
  infer_instance

/-- Document read: the profile stored under a user identifier. -/
def Ledger.lookup : Ledger → String → Option UserProfile
  | [], _ => none
  | (k, v) :: rest, uid => if k = uid then some v else Ledger.lookup rest uid

/-- Document write: replace the profile stored under a user identifier,
or append it when absent.  Keys stay unique. -/
def Ledger.set : Ledger → String → UserProfile → Ledger
  | [], uid, p => [(uid, p)]
  | (k, v) :: rest, uid, p =>
    if k = uid then (uid, p) :: rest else (k, v) :: Ledger.set rest uid p

/-- Body of the Firestore transaction: read the profile document; if
absent, create it carrying the reward, zero referrals, no claimed
tasks, the current date string, one ad watched and no withdrawal in
progress; if present, increment only its points field. -/
def rewardTransaction (today : String) (uid : String) (p : Int) (ledger : Ledger) : Ledger :=
  match Ledger.lookup ledger uid with
  | none =>
    Ledger.set ledger uid
      { userId := uid, points := p, referrals := 0, claimedTasks := [],
        lastAdWatchDate := today, adsWatchedToday := 1, processingWithdrawal := false }
  | some prof =>
    Ledger.set ledger uid { prof with points := prof.points + p }

/-- The GET /monetag-reward handler.  today is the server-local date
string produced by new Date().toDateString(); txFails tells whether
the Firestore transaction raises, in which case the store applies none
of its writes and the handler answers 500 from its catch block. -/
def handleMonetagReward (cfg : Config) (today : String) (txFails : Bool)
    (req : Request) (ledger : Ledger) : HttpResponse × Ledger :=
  let rewardPoints := jsParseIntOpt req.points
  if req.secret ≠ some cfg.REWARD_ENDPOINT_SECRET then
    (⟨403, "Invalid secret."⟩, ledger)
  else if falsyStr req.user_id || rewardPoints.isNone
      || decide (rewardPoints.getD 0 ≤ 0) then
    (⟨400, "Invalid parameters."⟩, ledger)
  else if txFails then
    (⟨500, "Server Error during reward transaction."⟩, ledger)
  else
    (⟨200, "Reward processed."⟩,
     rewardTransaction today (req.user_id.getD "") (rewardPoints.getD 0) ledger)

/-- Ledger state after a sequence of requests is handled one after the
other.  The Firestore transaction makes every individual credit
atomic, so a set of concurrent in-flight requests commits in some
serial order: each interleaving is one such sequence. -/
def processAll (cfg : Config) (today : String) (reqs : List Request) (ledger : Ledger) : Ledger :=
  List.foldl (fun l r => (handleMonetagReward cfg today false r l).2) ledger reqs

/-- Points balance visible in the ledger for a user, when the profile
document exists. -/
def pointsBal (l : Ledger) (uid : String) : Option Int :=
  Option.map UserProfile.points (Ledger.lookup l uid)

/-! ## Ledger lemmas -/

theorem Ledger.lookup_set_self (l : Ledger) (uid : String) (p : UserProfile) :
    Ledger.lookup (Ledger.set l uid p) uid = some p := by
  induction l with
  | nil => simp [Ledger.set, Ledger.lookup]
  | cons kv rest ih =>
    obtain ⟨k, v⟩ := kv
    by_cases h : k = uid <;> simp [Ledger.set, Ledger.lookup, h, ih]

theorem Ledger.lookup_set_ne (l : Ledger) (uid v : String) (p : UserProfile)
    (h : uid ≠ v) :
    Ledger.lookup (Ledger.set l uid p) v = Ledger.lookup l v := by
  induction l with
  | nil => simp [Ledger.set, Ledger.lookup, h]
  | cons kv rest ih =>
    obtain ⟨k, w⟩ := kv
    by_cases hk : k = uid
    · subst hk
      simp [Ledger.set, Ledger.lookup, h]
    · simp [Ledger.set, Ledger.lookup, hk, ih]

/-! ## Evaluation of the handler on a fully validated request -/

theorem handle_valid (cfg : Config) (today : String) (req : Request) (ledger : Ledger)
    (uid : String) (p : Int)
    (hsec : req.secret = some cfg.REWARD_ENDPOINT_SECRET)
    (huid : req.user_id = some uid) (hne : uid ≠ "")
    (hp : jsParseIntOpt req.points = some p) (hpos : 0 < p) :
    handleMonetagReward cfg today false req ledger =
      (⟨200, "Reward processed."⟩, rewardTransaction today uid p ledger) := by
  simp [handleMonetagReward, hsec, huid, hp, falsyStr, hne, hpos.not_le]

theorem handle_wrong_secret (cfg : Config) (today : String) (txFails : Bool)
    (req : Request) (ledger : Ledger)
    (hsec : ¬ req.secret = some cfg.REWARD_ENDPOINT_SECRET) :
    handleMonetagReward cfg today txFails req ledger =
      (⟨403, "Invalid secret."⟩, ledger) := by
  unfold handleMonetagReward
  rw [if_pos hsec]

theorem handle_bad_params (cfg : Config) (today : String) (txFails : Bool)
    (req : Request) (ledger : Ledger)
    (hsec : req.secret = some cfg.REWARD_ENDPOINT_SECRET)
    (hcond : (falsyStr req.user_id || (jsParseIntOpt req.points).isNone
      || decide ((jsParseIntOpt req.points).getD 0 ≤ 0)) = true) :
    handleMonetagReward cfg today txFails req ledger =
      (⟨400, "Invalid parameters."⟩, ledger) := by
  unfold handleMonetagReward
  rw [if_neg (by simp [hsec]), if_pos hcond]

theorem handle_txfail (cfg : Config) (today : String) (req : Request) (ledger : Ledger)
    (hsec : req.secret = some cfg.REWARD_ENDPOINT_SECRET)
    (hcond : (falsyStr req.user_id || (jsParseIntOpt req.points).isNone
      || decide ((jsParseIntOpt req.points).getD 0 ≤ 0)) = false) :
    handleMonetagReward cfg today true req ledger =
      (⟨500, "Server Error during reward transaction."⟩, ledger) := by
  unfold handleMonetagReward
  rw [if_neg (by simp [hsec]), if_neg (by simp [hcond]), if_pos rfl]

theorem handle_ok (cfg : Config) (today : String) (req : Request) (ledger : Ledger)
    (hsec : req.secret = some cfg.REWARD_ENDPOINT_SECRET)
    (hcond : (falsyStr req.user_id || (jsParseIntOpt req.points).isNone
      || decide ((jsParseIntOpt req.points).getD 0 ≤ 0)) = false) :
    handleMonetagReward cfg today false req ledger =
      (⟨200, "Reward processed."⟩,
       rewardTransaction today (req.user_id.getD "")
         ((jsParseIntOpt req.points).getD 0) ledger) := by
  unfold handleMonetagReward
  rw [if_neg (by simp [hsec]), if_neg (by simp [hcond]), if_neg (by simp)]

theorem falsyStr_eq_false_iff (o : Option String) :
    falsyStr o = false ↔ ∃ u, o = some u ∧ u ≠ "" := by
  cases o <;> simp [falsyStr]

theorem lookup_rewardTransaction_ne (today u : String) (p : Int) (ledger : Ledger)
    (uid : String) (h : u ≠ uid) :
    Ledger.lookup (rewardTransaction today u p ledger) uid =
      Ledger.lookup ledger uid := by
  unfold rewardTransaction
  cases Ledger.lookup ledger u with
  | none => exact Ledger.lookup_set_ne ledger u uid _ h
  | some q => exact Ledger.lookup_set_ne ledger u uid _ h

theorem lookup_rewardTransaction_existing (today uid : String) (p : Int)
    (ledger : Ledger) (prof : UserProfile)
    (hex : Ledger.lookup ledger uid = some prof) :
    Ledger.lookup (rewardTransaction today uid p ledger) uid =
      some ⟨prof.userId, prof.points + p, prof.referrals, prof.claimedTasks,
        prof.lastAdWatchDate, prof.adsWatchedToday, prof.processingWithdrawal⟩ := by
  unfold rewardTransaction
  rw [hex]
  exact Ledger.lookup_set_self ledger uid _

theorem lookup_rewardTransaction_fresh (today uid : String) (p : Int)
    (ledger : Ledger) (habs : Ledger.lookup ledger uid = none) :
    Ledger.lookup (rewardTransaction today uid p ledger) uid =
      some ⟨uid, p, 0, [], today, 1, false⟩ := by
  unfold rewardTransaction
  rw [habs]
  exact Ledger.lookup_set_self ledger uid _

/-! ## Claim theorems -/

/-- Claim C1: a postback with the correct secret, a non-empty user_id
with no existing profile, and a points parameter parsing to a positive
integer creates exactly the profile with the parsed reward, zero
referrals, no claimed tasks, one ad watched today, the current
server-local date string and no withdrawal in progress, and answers
200 with body "Reward processed.". -/
theorem monetag_fresh_user_created (cfg : Config) (today : String) (req : Request)
    (ledger : Ledger) (uid : String) (p : Int)
    (hsec : req.secret = some cfg.REWARD_ENDPOINT_SECRET)
    (huid : req.user_id = some uid) (hne : uid ≠ "")
    (hp : jsParseIntOpt req.points = some p) (hpos : 0 < p)
    (habs : Ledger.lookup ledger uid = none) :
    handleMonetagReward cfg today false req ledger =
      (⟨200, "Reward processed."⟩,
       Ledger.set ledger uid
         { userId := uid, points := p, referrals := 0, claimedTasks := [],
           lastAdWatchDate := today, adsWatchedToday := 1,
           processingWithdrawal := false }) := by
  rw [handle_valid cfg today req ledger uid p hsec huid hne hp hpos]
  simp [rewardTransaction, habs]

/-- Witness for C1: the scenario of the spec, fresh user u1 credited 50. -/
theorem monetag_fresh_user_created_witness :
    handleMonetagReward ⟨"s3cr3t"⟩ "Mon Oct 06 2025" false
        ⟨some "u1", some "s3cr3t", some "50"⟩ [] =
      (⟨200, "Reward processed."⟩,
       [("u1", ⟨"u1", 50, 0, [], "Mon Oct 06 2025", 1, false⟩)]) :=
  monetag_fresh_user_created ⟨"s3cr3t"⟩ "Mon Oct 06 2025"
    ⟨some "u1", some "s3cr3t", some "50"⟩ [] "u1" 50
    rfl rfl (by decide) (by decide) (by decide) rfl

/-- Claim C2: a validated postback for an existing profile increments
only the points field by the parsed reward, leaves userId, referrals,
claimedTasks, lastAdWatchDate, adsWatchedToday and
processingWithdrawal unchanged, and answers 200. -/
theorem monetag_existing_user_credited (cfg : Config) (today : String) (req : Request)
    (ledger : Ledger) (uid : String) (p : Int) (prof : UserProfile)
    (hsec : req.secret = some cfg.REWARD_ENDPOINT_SECRET)
    (huid : req.user_id = some uid) (hne : uid ≠ "")
    (hp : jsParseIntOpt req.points = some p) (hpos : 0 < p)
    (hex : Ledger.lookup ledger uid = some prof) :
    handleMonetagReward cfg today false req ledger =
      (⟨200, "Reward processed."⟩,
       Ledger.set ledger uid
         ⟨prof.userId, prof.points + p, prof.referrals, prof.claimedTasks,
          prof.lastAdWatchDate, prof.adsWatchedToday,
          prof.processingWithdrawal⟩) := by
  rw [handle_valid cfg today req ledger uid p hsec huid hne hp hpos]
  simp [rewardTransaction, hex]

/-- Witness for C2: the scenario of the spec, user u1 holding 50 points
credited 20 more, ending at 70 with every other field unchanged. -/
theorem monetag_existing_user_credited_witness :
    handleMonetagReward ⟨"s3cr3t"⟩ "Tue Oct 07 2025" false
        ⟨some "u1", some "s3cr3t", some "20"⟩
        [("u1", ⟨"u1", 50, 3, ["t1"], "Mon Oct 06 2025", 1, false⟩)] =
      (⟨200, "Reward processed."⟩,
       [("u1", ⟨"u1", 70, 3, ["t1"], "Mon Oct 06 2025", 1, false⟩)]) :=
  monetag_existing_user_credited ⟨"s3cr3t"⟩ "Tue Oct 07 2025"
    ⟨some "u1", some "s3cr3t", some "20"⟩
    [("u1", ⟨"u1", 50, 3, ["t1"], "Mon Oct 06 2025", 1, false⟩)] "u1" 20
    ⟨"u1", 50, 3, ["t1"], "Mon Oct 06 2025", 1, false⟩
    rfl rfl (by decide) (by decide) (by decide) rfl

/-- Claim C4: whenever the secret parameter differs from the configured
shared secret, the handler answers 403 with body "Invalid secret." and
returns the ledger unchanged, whatever the other parameters hold. -/
theorem monetag_wrong_secret_rejected (cfg : Config) (today : String) (txFails : Bool)
    (req : Request) (ledger : Ledger)
    (hsec : req.secret ≠ some cfg.REWARD_ENDPOINT_SECRET) :
    handleMonetagReward cfg today txFails req ledger =
      (⟨403, "Invalid secret."⟩, ledger) := by
  unfold handleMonetagReward
  rw [if_pos hsec]

/-- Witness for C4: otherwise valid parameters with a wrong secret leave
the existing ledger entry untouched and draw a 403. -/
theorem monetag_wrong_secret_rejected_witness :
    handleMonetagReward ⟨"right"⟩ "d" false
        ⟨some "u1", some "wrong", some "50"⟩
        [("u1", ⟨"u1", 5, 0, [], "d0", 1, false⟩)] =
      (⟨403, "Invalid secret."⟩, [("u1", ⟨"u1", 5, 0, [], "d0", 1, false⟩)]) :=
  monetag_wrong_secret_rejected ⟨"right"⟩ "d" false
    ⟨some "u1", some "wrong", some "50"⟩
    [("u1", ⟨"u1", 5, 0, [], "d0", 1, false⟩)] (by decide)

/-- Claim C5: when the ledger transaction of a validated postback
raises, the handler answers 500 with body "Server Error during reward
transaction." and the ledger is exactly what it was before the
request. -/
theorem monetag_tx_failure_500 (cfg : Config) (today : String) (req : Request)
    (ledger : Ledger) (uid : String) (p : Int)
    (hsec : req.secret = some cfg.REWARD_ENDPOINT_SECRET)
    (huid : req.user_id = some uid) (hne : uid ≠ "")
    (hp : jsParseIntOpt req.points = some p) (hpos : 0 < p) :
    handleMonetagReward cfg today true req ledger =
      (⟨500, "Server Error during reward transaction."⟩, ledger) := by
  simp [handleMonetagReward, hsec, huid, hp, falsyStr, hne, hpos.not_le]

/-- Witness for C5: an unreachable store during an otherwise valid
credit yields 500 and no state change. -/
theorem monetag_tx_failure_500_witness :
    handleMonetagReward ⟨"s3cr3t"⟩ "d" true
        ⟨some "u1", some "s3cr3t", some "50"⟩
        [("u1", ⟨"u1", 5, 0, [], "d0", 1, false⟩)] =
      (⟨500, "Server Error during reward transaction."⟩,
       [("u1", ⟨"u1", 5, 0, [], "d0", 1, false⟩)]) :=
  monetag_tx_failure_500 ⟨"s3cr3t"⟩ "d"
    ⟨some "u1", some "s3cr3t", some "50"⟩
    [("u1", ⟨"u1", 5, 0, [], "d0", 1, false⟩)] "u1" 50
    rfl rfl (by decide) (by decide) (by decide)

/-- Claim C10: the secret check strictly precedes parameter validation:
a request whose secret is wrong and whose parameters are also
malformed draws 403 "Invalid secret.", never 400, so a caller without
the secret learns nothing about parameter validity. -/
theorem monetag_secret_checked_first (cfg : Config) (today : String) (txFails : Bool)
    (req : Request) (ledger : Ledger)
    (hsec : req.secret ≠ some cfg.REWARD_ENDPOINT_SECRET)
    (hbad : falsyStr req.user_id = true ∨ jsParseIntOpt req.points = none ∨
      (jsParseIntOpt req.points).getD 0 ≤ 0) :
    handleMonetagReward cfg today txFails req ledger =
      (⟨403, "Invalid secret."⟩, ledger) := by
  unfold handleMonetagReward
  rw [if_pos hsec]

/-- Witness for C10: missing user_id, non-numeric points and a wrong
secret still draw 403, not 400. -/
theorem monetag_secret_checked_first_witness :
    handleMonetagReward ⟨"right"⟩ "d" false ⟨none, some "wrong", some "abc"⟩ [] =
      (⟨403, "Invalid secret."⟩, []) :=
  monetag_secret_checked_first ⟨"right"⟩ "d" false
    ⟨none, some "wrong", some "abc"⟩ [] (by decide) (Or.inl rfl)

/-- Counterexample to C3 as stated: the points value "12abc" is not a
numeral, yet parseInt reads its leading digits, so with the correct
secret the handler answers 200 and writes a profile holding 12 points
instead of rejecting with 400 and keeping the value away from the
ledger. -/
theorem monetag_nonnumeric_points_reaches_ledger :
    (handleMonetagReward ⟨"s3"⟩ "Mon Oct 06 2025" false
        ⟨some "u1", some "s3", some "12abc"⟩ []).1.status = 200 ∧
    Ledger.lookup (handleMonetagReward ⟨"s3"⟩ "Mon Oct 06 2025" false
        ⟨some "u1", some "s3", some "12abc"⟩ []).2 "u1" =
      some ⟨"u1", 12, 0, [], "Mon Oct 06 2025", 1, false⟩ := by
  decide

/-- Claim C3, amended: with the correct secret the handler answers 400
with body "Invalid parameters." and leaves the ledger untouched
exactly when user_id is absent or empty, parseInt of points is NaN, or
the parsed value is at most 0 — where parseInt follows JavaScript
semantics and reads the longest leading digit run, so a value with a
numeric head such as "12abc" parses to 12 and is accepted rather than
rejected. -/
theorem monetag_bad_params_iff (cfg : Config) (today : String) (txFails : Bool)
    (req : Request) (ledger : Ledger)
    (hsec : req.secret = some cfg.REWARD_ENDPOINT_SECRET) :
    handleMonetagReward cfg today txFails req ledger =
        (⟨400, "Invalid parameters."⟩, ledger) ↔
      (falsyStr req.user_id = true ∨ jsParseIntOpt req.points = none ∨
        (jsParseIntOpt req.points).getD 0 ≤ 0) := by
  have hs : ¬ req.secret ≠ some cfg.REWARD_ENDPOINT_SECRET := by simp [hsec]
  unfold handleMonetagReward
  rw [if_neg hs]
  by_cases hc : (falsyStr req.user_id || (jsParseIntOpt req.points).isNone
      || decide ((jsParseIntOpt req.points).getD 0 ≤ 0)) = true
  · rw [if_pos hc]
    constructor
    · intro _
      simpa [Option.isNone_iff_eq_none, decide_eq_true_eq, or_assoc] using hc
    · intro _
      rfl
  · rw [if_neg hc]
    constructor
    · intro h
      exfalso
      cases txFails <;> simp at h
    · intro h
      exfalso
      apply hc
      simpa [Option.isNone_iff_eq_none, decide_eq_true_eq, or_assoc] using h

/-- Witness for the amended C3: an empty user_id with the correct secret
and well-formed points draws 400 and leaves the ledger empty. -/
theorem monetag_bad_params_iff_witness :
    handleMonetagReward ⟨"s3"⟩ "d" false ⟨some "", some "s3", some "7"⟩ [] =
      (⟨400, "Invalid parameters."⟩, []) :=
  (monetag_bad_params_iff ⟨"s3"⟩ "d" false ⟨some "", some "s3", some "7"⟩ [] rfl).mpr
    (Or.inl rfl)

/-- Claim C6: whatever the request, the transaction-failure oracle and
the ledger, an existing profile still exists afterwards, its balance
never decreases, and a non-negative balance stays non-negative: the
endpoint only ever adds points to an existing profile. -/
theorem monetag_points_monotone (cfg : Config) (today : String) (txFails : Bool)
    (req : Request) (ledger : Ledger) (uid : String) (prof : UserProfile)
    (hex : Ledger.lookup ledger uid = some prof) :
    (pointsBal (handleMonetagReward cfg today txFails req ledger).2 uid).isSome = true ∧
    prof.points ≤
      (pointsBal (handleMonetagReward cfg today txFails req ledger).2 uid).getD prof.points ∧
    (0 ≤ prof.points →
      0 ≤ (pointsBal (handleMonetagReward cfg today txFails req ledger).2 uid).getD prof.points) := by
  by_cases hs : req.secret = some cfg.REWARD_ENDPOINT_SECRET
  case neg =>
    rw [handle_wrong_secret cfg today txFails req ledger hs]
    simp [pointsBal, hex]
  case pos =>
    cases hcond : (falsyStr req.user_id || (jsParseIntOpt req.points).isNone
        || decide ((jsParseIntOpt req.points).getD 0 ≤ 0)) with
    | true =>
      rw [handle_bad_params cfg today txFails req ledger hs hcond]
      simp [pointsBal, hex]
    | false =>
      have hsplit := hcond
      simp only [Bool.or_eq_false_iff] at hsplit
      obtain ⟨⟨hfal, hnn⟩, hdec⟩ := hsplit
      obtain ⟨u, hu, hune⟩ := (falsyStr_eq_false_iff req.user_id).mp hfal
      obtain ⟨p, hp⟩ := Option.isSome_iff_exists.mp
        ((Option.isNone_eq_false_iff _).mp hnn)
      have hpos : 0 < p := by
        rw [hp] at hdec
        have h3 := of_decide_eq_false hdec
        simp only [Option.getD_some] at h3
        omega
      cases txFails with
      | true =>
        rw [handle_txfail cfg today req ledger hs hcond]
        simp [pointsBal, hex]
      | false =>
        rw [handle_ok cfg today req ledger hs hcond]
        dsimp only
        rw [hu, hp]
        simp only [Option.getD_some]
        by_cases he : u = uid
        · subst he
          unfold pointsBal
          rw [lookup_rewardTransaction_existing today u p ledger prof hex]
          simp only [Option.map_some', Option.isSome_some, Option.getD_some]
          exact ⟨trivial, by omega, fun h0 => by omega⟩
        · unfold pointsBal
          rw [lookup_rewardTransaction_ne today u p ledger uid he, hex]
          simp only [Option.map_some', Option.isSome_some, Option.getD_some]
          exact ⟨trivial, le_refl _, fun h0 => h0⟩

/-- Witness for C6: a profile holding 50 points still holds at least 50
non-negative points after a further valid credit of 20. -/
theorem monetag_points_monotone_witness :
    (pointsBal (handleMonetagReward ⟨"s3"⟩ "d" false
        ⟨some "u1", some "s3", some "20"⟩
        [("u1", ⟨"u1", 50, 0, [], "d0", 1, false⟩)]).2 "u1").isSome = true ∧
    (50 : Int) ≤
      (pointsBal (handleMonetagReward ⟨"s3"⟩ "d" false
        ⟨some "u1", some "s3", some "20"⟩
        [("u1", ⟨"u1", 50, 0, [], "d0", 1, false⟩)]).2 "u1").getD 50 ∧
    ((0 : Int) ≤ 50 →
      0 ≤ (pointsBal (handleMonetagReward ⟨"s3"⟩ "d" false
        ⟨some "u1", some "s3", some "20"⟩
        [("u1", ⟨"u1", 50, 0, [], "d0", 1, false⟩)]).2 "u1").getD 50) :=
  monetag_points_monotone ⟨"s3"⟩ "d" false ⟨some "u1", some "s3", some "20"⟩
    [("u1", ⟨"u1", 50, 0, [], "d0", 1, false⟩)] "u1"
    ⟨"u1", 50, 0, [], "d0", 1, false⟩ rfl

/-! ## Sequences of credits -/

theorem processAll_nil (cfg : Config) (today : String) (ledger : Ledger) :
    processAll cfg today [] ledger = ledger := rfl

theorem processAll_cons (cfg : Config) (today : String) (r : Request)
    (rs : List Request) (ledger : Ledger) :
    processAll cfg today (r :: rs) ledger =
      processAll cfg today rs (handleMonetagReward cfg today false r ledger).2 := rfl

theorem processAll_replicate_balance (cfg : Config) (today : String) (uid s : String)
    (p : Int) (hne : uid ≠ "") (hp : jsParseInt s = some p) (hpos : 0 < p) :
    ∀ (k : Nat) (ledger : Ledger) (prof : UserProfile),
      Ledger.lookup ledger uid = some prof →
      pointsBal (processAll cfg today
          (List.replicate k ⟨some uid, some cfg.REWARD_ENDPOINT_SECRET, some s⟩)
          ledger) uid =
        some (prof.points + k * p) := by
  intro k
  induction k with
  | zero =>
    intro ledger prof hex
    simp [processAll_nil, pointsBal, hex]
  | succ k ih =>
    intro ledger prof hex
    have hstep := handle_valid cfg today
      ⟨some uid, some cfg.REWARD_ENDPOINT_SECRET, some s⟩ ledger uid p
      rfl rfl hne hp hpos
    rw [List.replicate_succ, processAll_cons, hstep]
    dsimp only
    have hnext : Ledger.lookup (rewardTransaction today uid p ledger) uid =
        some ⟨prof.userId, prof.points + p, prof.referrals, prof.claimedTasks,
          prof.lastAdWatchDate, prof.adsWatchedToday, prof.processingWithdrawal⟩ :=
      lookup_rewardTransaction_existing today uid p ledger prof hex
    rw [ih (rewardTransaction today uid p ledger) _ hnext]
    congr 1
    dsimp only
    push_cast
    ring

/-- Claim C7: under the store's transaction isolation a set of N
concurrent validated credits of amount p against the same user commits
in some serial order; every such order is a sequence of N handler
runs, and from an absent profile any such sequence ends with balance
exactly N * p — creation and credit never lose an update. -/
theorem monetag_concurrent_credits_sum (cfg : Config) (today : String) (uid s : String)
    (p : Int) (N : Nat) (ledger : Ledger)
    (hne : uid ≠ "") (hp : jsParseInt s = some p) (hpos : 0 < p)
    (habs : Ledger.lookup ledger uid = none) (hN : 0 < N) :
    pointsBal (processAll cfg today
        (List.replicate N ⟨some uid, some cfg.REWARD_ENDPOINT_SECRET, some s⟩)
        ledger) uid =
      some ((N : Int) * p) := by
  obtain ⟨k, rfl⟩ : ∃ k, N = k + 1 := ⟨N - 1, by omega⟩
  have hstep := handle_valid cfg today
    ⟨some uid, some cfg.REWARD_ENDPOINT_SECRET, some s⟩ ledger uid p
    rfl rfl hne hp hpos
  rw [List.replicate_succ, processAll_cons, hstep]
  dsimp only
  have hfirst : Ledger.lookup (rewardTransaction today uid p ledger) uid =
      some ⟨uid, p, 0, [], today, 1, false⟩ :=
    lookup_rewardTransaction_fresh today uid p ledger habs
  rw [processAll_replicate_balance cfg today uid s p hne hp hpos k
    (rewardTransaction today uid p ledger) _ hfirst]
  congr 1
  dsimp only
  push_cast
  ring

/-- Witness for C7: three credits of 5 points to a fresh user leave a
balance of 15. -/
theorem monetag_concurrent_credits_sum_witness :
    pointsBal (processAll ⟨"s3"⟩ "d"
        (List.replicate 3 ⟨some "u1", some "s3", some "5"⟩) []) "u1" =
      some ((3 : Nat) * (5 : Int)) :=
  monetag_concurrent_credits_sum ⟨"s3"⟩ "d" "u1" "5" 5 3 []
    (by decide) (by decide) (by decide) rfl (by decide)

/-- Claim C8: with no idempotency key, two identical validated postbacks
for an existing user are both credited: each answers 200 and the final
balance exceeds the initial one by exactly twice the reward. -/
theorem monetag_double_credit (cfg : Config) (today : String) (req : Request)
    (ledger : Ledger) (uid : String) (p : Int) (prof : UserProfile)
    (hsec : req.secret = some cfg.REWARD_ENDPOINT_SECRET)
    (huid : req.user_id = some uid) (hne : uid ≠ "")
    (hp : jsParseIntOpt req.points = some p) (hpos : 0 < p)
    (hex : Ledger.lookup ledger uid = some prof) :
    (handleMonetagReward cfg today false req ledger).1 =
      ⟨200, "Reward processed."⟩ ∧
    (handleMonetagReward cfg today false req
        (handleMonetagReward cfg today false req ledger).2).1 =
      ⟨200, "Reward processed."⟩ ∧
    pointsBal (handleMonetagReward cfg today false req
        (handleMonetagReward cfg today false req ledger).2).2 uid =
      some (prof.points + 2 * p) := by
  have h1 := handle_valid cfg today req ledger uid p hsec huid hne hp hpos
  rw [h1]
  dsimp only
  have h2 := handle_valid cfg today req (rewardTransaction today uid p ledger)
    uid p hsec huid hne hp hpos
  rw [h2]
  dsimp only
  refine ⟨rfl, rfl, ?_⟩
  have hmid := lookup_rewardTransaction_existing today uid p ledger prof hex
  unfold pointsBal
  rw [lookup_rewardTransaction_existing today uid p
    (rewardTransaction today uid p ledger) _ hmid]
  simp only [Option.map_some']
  congr 1
  dsimp only
  ring

/-- Witness for C8: two identical credits of 20 to a user holding 50
points end at 90. -/
theorem monetag_double_credit_witness :
    (handleMonetagReward ⟨"s3"⟩ "d" false ⟨some "u1", some "s3", some "20"⟩
        [("u1", ⟨"u1", 50, 0, [], "d0", 1, false⟩)]).1 =
      ⟨200, "Reward processed."⟩ ∧
    (handleMonetagReward ⟨"s3"⟩ "d" false ⟨some "u1", some "s3", some "20"⟩
        (handleMonetagReward ⟨"s3"⟩ "d" false ⟨some "u1", some "s3", some "20"⟩
          [("u1", ⟨"u1", 50, 0, [], "d0", 1, false⟩)]).2).1 =
      ⟨200, "Reward processed."⟩ ∧
    pointsBal (handleMonetagReward ⟨"s3"⟩ "d" false ⟨some "u1", some "s3", some "20"⟩
        (handleMonetagReward ⟨"s3"⟩ "d" false ⟨some "u1", some "s3", some "20"⟩
          [("u1", ⟨"u1", 50, 0, [], "d0", 1, false⟩)]).2).2 "u1" =
      some (50 + 2 * 20) :=
  monetag_double_credit ⟨"s3"⟩ "d" ⟨some "u1", some "s3", some "20"⟩
    [("u1", ⟨"u1", 50, 0, [], "d0", 1, false⟩)] "u1" 20
    ⟨"u1", 50, 0, [], "d0", 1, false⟩
    rfl rfl (by decide) (by decide) (by decide) rfl

/-- Counterexample to C9 as stated: the points value 9007199254740993,
that is 2 ^ 53 + 1, is a positive integer, and the postback is
accepted with 200 — but it is not credited in full: parseInt returns
the nearest binary64 double, so the ledger receives 9007199254740992,
one less than the decimal value written in the request. -/
theorem monetag_large_points_not_credited_in_full :
    (handleMonetagReward ⟨"s3"⟩ "d" false
        ⟨some "u1", some "s3", some "9007199254740993"⟩ []).1.status = 200 ∧
    pointsBal (handleMonetagReward ⟨"s3"⟩ "d" false
        ⟨some "u1", some "s3", some "9007199254740993"⟩ []).2 "u1" =
      some 9007199254740992 ∧
    (9007199254740992 : Int) ≠ 9007199254740993 := by
  decide

/-- Claim C9, amended: no upper bound is enforced anywhere in the
validation or crediting path: for every points string whose parseInt
Number value is positive, however large, a postback with the correct
secret and a non-empty user_id answers 200 and the balance grows by
exactly that parsed Number value.  Crediting in full relative to the
decimal digits written in the request holds only below 2 ^ 53, where
the binary64 Number is exact; above it the credited amount is the
rounded double. -/
theorem monetag_no_points_cap (cfg : Config) (today : String) (ledger : Ledger)
    (uid s : String) (p : Int)
    (hne : uid ≠ "") (hp : jsParseInt s = some p) (hpos : 0 < p) :
    (handleMonetagReward cfg today false
        ⟨some uid, some cfg.REWARD_ENDPOINT_SECRET, some s⟩ ledger).1 =
      ⟨200, "Reward processed."⟩ ∧
    pointsBal (handleMonetagReward cfg today false
        ⟨some uid, some cfg.REWARD_ENDPOINT_SECRET, some s⟩ ledger).2 uid =
      some ((pointsBal ledger uid).getD 0 + p) := by
  rw [handle_valid cfg today ⟨some uid, some cfg.REWARD_ENDPOINT_SECRET, some s⟩
    ledger uid p rfl rfl hne hp hpos]
  dsimp only
  refine ⟨rfl, ?_⟩
  cases hl : Ledger.lookup ledger uid with
  | none =>
    unfold pointsBal
    rw [lookup_rewardTransaction_fresh today uid p ledger hl, hl]
    simp
  | some q =>
    unfold pointsBal
    rw [lookup_rewardTransaction_existing today uid p ledger q hl, hl]
    simp

set_option maxRecDepth 8000 in
/-- Witness for the amended C9: a thirty-digit reward string is
accepted, and the balance grows by its parseInt Number value, the
nearest binary64 double to the written decimal. -/
theorem monetag_no_points_cap_witness :
    (handleMonetagReward ⟨"s3"⟩ "d" false
        ⟨some "u1", some "s3", some "987654321098765432109876543210"⟩ []).1 =
      ⟨200, "Reward processed."⟩ ∧
    pointsBal (handleMonetagReward ⟨"s3"⟩ "d" false
        ⟨some "u1", some "s3", some "987654321098765432109876543210"⟩ []).2 "u1" =
      some ((pointsBal [] "u1").getD 0 + 987654321098765392283420327936) :=
  monetag_no_points_cap ⟨"s3"⟩ "d" [] "u1" "987654321098765432109876543210"
    987654321098765392283420327936 (by decide) (by decide) (by decide)

end KkoinServer
